import Mathlib

/-!
Verification of the client-side dashboard controller in static/js/app.js.

The file is a shallow embedding: JavaScript numbers are modelled as
rationals (counts as naturals), DOM-visible state as fields of an explicit
record, and each asynchronous orchestration function as a pure state
transformer that receives the outcome of its network call as an explicit
argument.  Rendering functions (displayMetrics, displayWebsites,
updateChart) are translated line by line from the source.
-/

/-- One metric sample as returned by the metrics endpoint. -/
structure MetricSample where
  date : String
  clicks : Nat
  impressions : Nat
  position : ℚ
deriving DecidableEq

/-- One website record as returned by the websites endpoint. -/
structure Website where
  id : Nat
  name : String
  url : String
  is_verified : Bool
  last_audit : Option String
deriving DecidableEq

/-- Rendered content of one website card in the grid. -/
structure CardView where
  name : String
  url : String
  status : String
  lastAuditLabel : String
deriving DecidableEq

/-- Rendered content of the websites grid element. -/
inductive GridView where
  | initial
  | emptyState
  | cards (cs : List CardView)
deriving DecidableEq

/-- Network requests issued through fetch, in order of issue. -/
inductive ApiRequest where
  | getWebsites
  | getMetrics (websiteId : Nat) (days : String)
  | postWebsite (name url : String)
  | delWebsite (websiteId : Nat)
  | postAudit (websiteId : Nat)
deriving DecidableEq

/-- Outcome of the delete request as observed by deleteWebsite. -/
inductive DeleteResult where
  | ok
  | httpError
  | networkError
deriving DecidableEq

/-- Outcome of the audit request as observed by runAudit.  A non-2xx
response may carry a structured error field in its JSON body. -/
inductive AuditResult where
  | ok
  | httpError (errField : Option String)
  | networkError
deriving DecidableEq

/-- Outcome of the create request as observed by handleAddWebsite.  On a
2xx response the function reloads the website list, whose own outcome is
carried along. -/
inductive AddWebsiteResult where
  | ok (reload : Except Unit (List Website))
  | httpError (errField : Option String)
  | networkError

/-- The full client-side state: the two script globals, the DOM-visible
surfaces the script mutates, and instrumentation recording issued requests
and live chart instances. -/
structure DashboardState where
  currentWebsiteId : Option Nat
  performanceChart : Option Nat
  chartsAlive : List Nat
  nextChartId : Nat
  metricsSectionVisible : Bool
  loadingVisible : Bool
  modalVisible : Bool
  selectedWebsiteName : String
  dateRangeValue : String
  formName : String
  formUrl : String
  totalClicksText : String
  totalImpressionsText : String
  avgCtrText : String
  avgPositionText : String
  websitesGrid : GridView
  lastLoadedWebsites : List Website
  notifications : List (String × String)
  requests : List ApiRequest
deriving DecidableEq

/-- Initial state at page load, before any handler has run. -/
def initialState : DashboardState where
  currentWebsiteId := none
  performanceChart := none
  chartsAlive := []
  nextChartId := 0
  metricsSectionVisible := false
  loadingVisible := false
  modalVisible := false
  selectedWebsiteName := ""
  dateRangeValue := "30"
  formName := ""
  formUrl := ""
  totalClicksText := ""
  totalImpressionsText := ""
  avgCtrText := ""
  avgPositionText := ""
  websitesGrid := GridView.initial
  lastLoadedWebsites := []
  notifications := []
  requests := []

/-- Model of showLoading: the overlay element becomes visible. -/
def showLoading (s : DashboardState) : DashboardState :=
  { s with loadingVisible := true }

/-- Model of hideLoading: the overlay element becomes hidden. -/
def hideLoading (s : DashboardState) : DashboardState :=
  { s with loadingVisible := false }

/-- Model of showNotification: a transient notification element is
appended to the document body. -/
def showNotification (message kind : String) (s : DashboardState) : DashboardState :=
  { s with notifications := s.notifications ++ [(message, kind)] }

/-- Model of hideAddWebsiteModal: the modal is hidden and the form reset. -/
def hideAddWebsiteModal (s : DashboardState) : DashboardState :=
  { s with modalVisible := false, formName := "", formUrl := "" }

/-- Record one fetch call in issue order. -/
def pushRequest (r : ApiRequest) (s : DashboardState) : DashboardState :=
  { s with requests := s.requests ++ [r] }

/-- Left pad a string with zero characters up to the given length. -/
def padLeft (s : String) (len : Nat) : String :=
  ⟨List.replicate (len - s.length) '0'⟩ ++ s

/-- Fixed-point rendering of a nonnegative rational, as in the toFixed
method of JavaScript numbers: the value scaled by 10 ^ digits is rounded
to the nearest integer, half away from zero. -/
def toFixedNonneg (q : ℚ) (digits : Nat) : String :=
  let p : Nat := 10 ^ digits
  let n : Nat := (Int.floor (q * (p : ℚ) + 1/2)).toNat
  if digits = 0 then toString (n / p)
  else toString (n / p) ++ "." ++ padLeft (toString (n % p)) digits

/-- Model of the toFixed method of JavaScript numbers over rationals. -/
def toFixed (q : ℚ) (digits : Nat) : String :=
  if q < 0 then "-" ++ toFixedNonneg (-q) digits else toFixedNonneg q digits

/-- Insert a comma after every three characters of a reversed digit
list; helper for toLocaleString. -/
def chunk3Rev : List Char → List Char
  | [] => []
  | [a] => [a]
  | [a, b] => [a, b]
  | [a, b, c] => [a, b, c]
  | a :: b :: c :: d :: rest => a :: b :: c :: ',' :: chunk3Rev (d :: rest)

/-- Model of the toLocaleString method of JavaScript numbers for natural
numbers under the default en-US locale: digits grouped in threes by
commas. -/
def toLocaleString (n : Nat) : String :=
  ⟨(chunk3Rev (toString n).data.reverse).reverse⟩

/-- Model of displayMetrics (app.js lines 123 to 141), translated line by
line: the empty case writes four literal texts; otherwise total clicks and
impressions are folded sums, average CTR is guarded by a positivity test
on total impressions, and average position is the mean of positions. -/
def displayMetrics (metrics : List MetricSample) (s : DashboardState) : DashboardState :=
  if metrics.length = 0 then
    { s with totalClicksText := "0"
             totalImpressionsText := "0"
             avgCtrText := "0%"
             avgPositionText := "0" }
  else
    let totalClicks : Nat := metrics.foldl (fun sum m => sum + m.clicks) 0
    let totalImpressions : Nat := metrics.foldl (fun sum m => sum + m.impressions) 0
    let avgCtr : String :=
      if totalImpressions > 0 then
        toFixed ((totalClicks : ℚ) / (totalImpressions : ℚ) * 100) 2
      else "0"
    let avgPosition : String :=
      toFixed ((metrics.foldl (fun sum m => sum + m.position) 0) / (metrics.length : ℚ)) 1
    { s with totalClicksText := toLocaleString totalClicks
             totalImpressionsText := toLocaleString totalImpressions
             avgCtrText := avgCtr ++ "%"
             avgPositionText := avgPosition }

/-- Rendered card for one website (app.js lines 65 to 89): the status cell
shows Verified or Pending from is_verified, the audit cell Recent or Never
from the truthiness of last_audit. -/
def websiteCard (w : Website) : CardView where
  name := w.name
  url := w.url
  status := if w.is_verified then "Verified" else "Pending"
  lastAuditLabel := if w.last_audit.isSome then "Recent" else "Never"

/-- Model of displayWebsites (app.js lines 48 to 90): an empty list
renders the empty-state prompt, otherwise one card per website in list
order.  The rendered list is also recorded as the last-loaded list. -/
def displayWebsites (websites : List Website) (s : DashboardState) : DashboardState :=
  if websites.length = 0 then
    { s with websitesGrid := GridView.emptyState, lastLoadedWebsites := websites }
  else
    { s with websitesGrid := GridView.cards (websites.map websiteCard)
             lastLoadedWebsites := websites }

/-- Model of updateChart (app.js lines 144 to 231): when a chart instance
is held it is destroyed first, then a fresh instance is constructed on the
canvas and assigned to the global handle.  Chart instances are modelled by
identifiers; chartsAlive tracks undestroyed instances. -/
def updateChart (_metrics : List MetricSample) (s : DashboardState) : DashboardState :=
  let s1 :=
    match s.performanceChart with
    | some c => { s with chartsAlive := s.chartsAlive.erase c }
    | none => s
  { s1 with performanceChart := some s1.nextChartId
            chartsAlive := s1.chartsAlive ++ [s1.nextChartId]
            nextChartId := s1.nextChartId + 1 }

/-- Model of loadWebsites (app.js lines 32 to 45): show overlay, fetch the
website list, render it on success or notify on failure, and hide the
overlay on either path through the finally block. -/
def loadWebsites (result : Except Unit (List Website)) (s : DashboardState) : DashboardState :=
  let s := showLoading s
  let s := pushRequest ApiRequest.getWebsites s
  let s :=
    match result with
    | Except.ok websites => displayWebsites websites s
    | Except.error _ => showNotification "Error loading websites" "error" s
  hideLoading s

/-- Model of loadWebsiteMetrics (app.js lines 105 to 120): show overlay,
read the date range value, fetch metrics, render summary cards and then
the chart on success or notify on failure, and hide the overlay on either
path. -/
def loadWebsiteMetrics (websiteId : Nat) (result : Except Unit (List MetricSample))
    (s : DashboardState) : DashboardState :=
  let s := showLoading s
  let days := s.dateRangeValue
  let s := pushRequest (ApiRequest.getMetrics websiteId days) s
  let s :=
    match result with
    | Except.ok metrics => updateChart metrics (displayMetrics metrics s)
    | Except.error _ => showNotification "Error loading metrics" "error" s
  hideLoading s

/-- Selection part of selectWebsite (app.js lines 94 to 99): set the
global id, update the header label, make the metrics section visible.
These run before the metrics request is issued. -/
def applySelection (websiteId : Nat) (websiteName : String)
    (s : DashboardState) : DashboardState :=
  { s with currentWebsiteId := some websiteId
           selectedWebsiteName := websiteName ++ " - Metrics"
           metricsSectionVisible := true }

/-- Model of selectWebsite (app.js lines 93 to 102): apply the selection
state, then load metrics for the selected website. -/
def selectWebsite (websiteId : Nat) (websiteName : String)
    (result : Except Unit (List MetricSample)) (s : DashboardState) : DashboardState :=
  loadWebsiteMetrics websiteId result (applySelection websiteId websiteName s)

/-- Model of handleAddWebsite (app.js lines 246 to 276): show overlay,
post the form values; on 2xx close the modal, notify success and reload
the list; on non-2xx show the server error field or a fallback; on a
network error show the fallback; hide the overlay on every path. -/
def handleAddWebsite (result : AddWebsiteResult) (s : DashboardState) : DashboardState :=
  let name := s.formName
  let url := s.formUrl
  let s := showLoading s
  let s := pushRequest (ApiRequest.postWebsite name url) s
  let s :=
    match result with
    | AddWebsiteResult.ok reload =>
        let s := hideAddWebsiteModal s
        let s := showNotification "Website added successfully!" "success" s
        loadWebsites reload s
    | AddWebsiteResult.httpError errField =>
        showNotification (errField.getD "Error adding website") "error" s
    | AddWebsiteResult.networkError =>
        showNotification "Error adding website" "error" s
  hideLoading s

/-- Model of deleteWebsite (app.js lines 279 to 308): nothing happens
without confirmation; otherwise show overlay and issue the delete; on 2xx
notify success, reload the list, then clear the selection and hide the
metrics section exactly when the deleted id equals the current one; on
failure notify; hide the overlay on every path that reached the try
block. -/
def deleteWebsite (websiteId : Nat) (confirmed : Bool) (result : DeleteResult)
    (reload : Except Unit (List Website)) (s : DashboardState) : DashboardState :=
  if !confirmed then s
  else
    let s := showLoading s
    let s := pushRequest (ApiRequest.delWebsite websiteId) s
    let s :=
      match result with
      | DeleteResult.ok =>
          let s := showNotification "Website deleted successfully!" "success" s
          let s := loadWebsites reload s
          if s.currentWebsiteId = some websiteId then
            { s with metricsSectionVisible := false, currentWebsiteId := none }
          else s
      | DeleteResult.httpError =>
          showNotification "Error deleting website" "error" s
      | DeleteResult.networkError =>
          showNotification "Error deleting website" "error" s
    hideLoading s

/-- Truthiness of the nullable numeric global currentWebsiteId under
JavaScript negation: null and the number zero are both falsy. -/
def jsFalsyId : Option Nat → Bool
  | none => true
  | some n => n == 0

/-- Model of runAudit (app.js lines 311 to 338): a falsy current id only
notifies and returns before the try block; otherwise show overlay, post
the audit, notify by outcome, and hide the overlay on every such path. -/
def runAudit (result : AuditResult) (s : DashboardState) : DashboardState :=
  if jsFalsyId s.currentWebsiteId then
    showNotification "Please select a website first" "error" s
  else
    let websiteId := s.currentWebsiteId.getD 0
    let s := showLoading s
    let s := pushRequest (ApiRequest.postAudit websiteId) s
    let s :=
      match result with
      | AuditResult.ok => showNotification "Audit completed successfully!" "success" s
      | AuditResult.httpError errField =>
          showNotification (errField.getD "Error running audit") "error" s
      | AuditResult.networkError =>
          showNotification "Error running audit" "error" s
    hideLoading s

/-- Spec-side aggregation policy for the displayed average CTR, written
from the specification text: average CTR is total clicks over total
impressions times one hundred, rounded to two decimal places, and defined
as zero, displayed as the text 0%, when total impressions is zero. -/
def specAvgCtrText (metrics : List MetricSample) : String :=
  let totalClicks : Nat := (metrics.map (fun m => m.clicks)).sum
  let totalImpressions : Nat := (metrics.map (fun m => m.impressions)).sum
  if totalImpressions > 0 then
    toFixed ((totalClicks : ℚ) / (totalImpressions : ℚ) * 100) 2 ++ "%"
  else "0%"

/-- Resource-ownership invariant for chart instances: the set of live
instances is exactly the one held by the global handle, and every live
instance was allocated before the next fresh identifier. -/
def chartInvariant (s : DashboardState) : Prop :=
  s.chartsAlive = s.performanceChart.toList ∧ ∀ c ∈ s.chartsAlive, c < s.nextChartId

instance (s : DashboardState) : Decidable (chartInvariant s) := by
  unfold chartInvariant; infer_instance

/-- Selection invariant claimed by the specification: a non-null current
website id references a website present in the last-loaded website
list. -/
def selectionInvariant (s : DashboardState) : Prop :=
  match s.currentWebsiteId with
  | none => True
  | some id => id ∈ s.lastLoadedWebsites.map (fun w => w.id)

instance (s : DashboardState) : Decidable (selectionInvariant s) := by
  unfold selectionInvariant
  rcases s.currentWebsiteId with _ | id
  · exact inferInstanceAs (Decidable True)
  · exact inferInstanceAs (Decidable (id ∈ _))

lemma foldl_add_map {α M : Type*} [AddCommMonoid M] (f : α → M) (l : List α) (n : M) :
    l.foldl (fun a x => a + f x) n = n + (l.map f).sum := by
  induction l generalizing n with
  | nil => simp
  | cons x xs ih => simp [ih, add_assoc]

lemma toFixed_eval (q : ℚ) (d : Nat) (n : Nat) (h0 : ¬ q < 0)
    (hn : Int.floor (q * ((10 ^ d : Nat) : ℚ) + 1/2) = (n : ℤ)) :
    toFixed q d = (if d = 0 then toString (n / 10 ^ d)
      else toString (n / 10 ^ d) ++ "." ++ padLeft (toString (n % 10 ^ d)) d) := by
  rw [toFixed, if_neg h0, toFixedNonneg]
  simp only [hn, Int.toNat_natCast]

/-- Claim C1: for every metrics array, the displayed average CTR equals
the spec formula, total clicks over total impressions times one hundred
rounded to two decimal places, and it is exactly the text 0% whenever
total impressions is zero, including when every sample has zero
impressions and when the array is empty. -/
theorem displayMetrics_avgCtr_spec (metrics : List MetricSample) (s : DashboardState) :
    (displayMetrics metrics s).avgCtrText = specAvgCtrText metrics := by
  unfold displayMetrics specAvgCtrText
  rcases metrics with _ | ⟨m, ms⟩
  · simp
  · simp only [List.length_cons, Nat.succ_ne_zero, if_false,
      foldl_add_map (fun x : MetricSample => x.clicks),
      foldl_add_map (fun x : MetricSample => x.impressions), zero_add]
    split
    · rfl
    · rfl

/-- Claim C2: for the empty metrics array, the four summary fields are set
to the literal texts 0, 0, 0% and 0. -/
theorem displayMetrics_empty_defaults (s : DashboardState) :
    (displayMetrics [] s).totalClicksText = "0"
    ∧ (displayMetrics [] s).totalImpressionsText = "0"
    ∧ (displayMetrics [] s).avgCtrText = "0%"
    ∧ (displayMetrics [] s).avgPositionText = "0" :=
  ⟨rfl, rfl, rfl, rfl⟩

/-- Two-sample metrics array of the specification scenario. -/
def demoMetrics : List MetricSample :=
  [⟨"2024-01-01", 10, 100, 5.5⟩, ⟨"2024-01-02", 20, 300, 4.5⟩]

/-- Claim C3: for every non-empty metrics array the displayed totals are
the sums of the clicks and impressions fields rendered by the locale
formatter, and the displayed average position is the mean of the position
fields rounded to one decimal place; on the two-sample scenario array the
four aggregates render as 30, 400, 7.50% and 5.0. -/
theorem displayMetrics_totals_and_scenario (m : MetricSample) (ms : List MetricSample)
    (s s2 : DashboardState) :
    ((displayMetrics (m :: ms) s).totalClicksText
        = toLocaleString (((m :: ms).map (fun x => x.clicks)).sum)
      ∧ (displayMetrics (m :: ms) s).totalImpressionsText
        = toLocaleString (((m :: ms).map (fun x => x.impressions)).sum)
      ∧ (displayMetrics (m :: ms) s).avgPositionText
        = toFixed ((((m :: ms).map (fun x => x.position)).sum) / (((m :: ms).length : Nat) : ℚ)) 1)
    ∧ ((displayMetrics demoMetrics s2).totalClicksText = "30"
      ∧ (displayMetrics demoMetrics s2).totalImpressionsText = "400"
      ∧ (displayMetrics demoMetrics s2).avgCtrText = "7.50%"
      ∧ (displayMetrics demoMetrics s2).avgPositionText = "5.0") := by
  constructor
  · unfold displayMetrics
    simp only [List.length_cons, Nat.succ_ne_zero, if_false,
      foldl_add_map (fun x : MetricSample => x.clicks),
      foldl_add_map (fun x : MetricSample => x.impressions),
      foldl_add_map (fun x : MetricSample => x.position), zero_add]
    exact ⟨trivial, trivial, trivial⟩
  · refine ⟨rfl, rfl, ?_, ?_⟩
    · show (if ((0:Nat) + 100 + 300 > 0) then
          toFixed ((((0:Nat) + 10 + 20 : Nat) : ℚ) / (((0:Nat) + 100 + 300 : Nat) : ℚ) * 100) 2
        else "0") ++ "%" = "7.50%"
      rw [if_pos (by norm_num)]
      rw [toFixed_eval _ 2 750 (by push_cast; norm_num)
        (by rw [Int.floor_eq_iff]; push_cast; norm_num)]
      decide
    · show toFixed ((0 + (5.5:ℚ) + 4.5) / ((2:Nat) : ℚ)) 1 = "5.0"
      rw [toFixed_eval _ 1 50 (by push_cast; norm_num)
        (by rw [Int.floor_eq_iff]; push_cast; norm_num)]
      decide

/-- Claim C9: an empty website list renders the empty-state prompt; a
non-empty list renders exactly one card per website in list order, each
card showing Verified when is_verified holds and Pending otherwise. -/
theorem displayWebsites_render_cases :
    (∀ s : DashboardState, (displayWebsites [] s).websitesGrid = GridView.emptyState)
    ∧ (∀ (w : Website) (ws : List Website) (s : DashboardState),
        (displayWebsites (w :: ws) s).websitesGrid
          = GridView.cards ((w :: ws).map websiteCard))
    ∧ (∀ (w : Website) (ws : List Website),
        ((w :: ws).map websiteCard).length = (w :: ws).length)
    ∧ (∀ w : Website,
        (websiteCard w).status = if w.is_verified then "Verified" else "Pending") :=
  ⟨fun _ => rfl, fun _ _ _ => rfl, fun _ _ => (List.length_map _ _).symm ▸ rfl,
    fun _ => rfl⟩

@[simp] lemma displayMetrics_currentWebsiteId (metrics : List MetricSample)
    (s : DashboardState) :
    (displayMetrics metrics s).currentWebsiteId = s.currentWebsiteId := by
  unfold displayMetrics; split <;> rfl

@[simp] lemma displayMetrics_metricsSectionVisible (metrics : List MetricSample)
    (s : DashboardState) :
    (displayMetrics metrics s).metricsSectionVisible = s.metricsSectionVisible := by
  unfold displayMetrics; split <;> rfl

@[simp] lemma displayMetrics_selectedWebsiteName (metrics : List MetricSample)
    (s : DashboardState) :
    (displayMetrics metrics s).selectedWebsiteName = s.selectedWebsiteName := by
  unfold displayMetrics; split <;> rfl

@[simp] lemma displayMetrics_requests (metrics : List MetricSample) (s : DashboardState) :
    (displayMetrics metrics s).requests = s.requests := by
  unfold displayMetrics; split <;> rfl

@[simp] lemma updateChart_currentWebsiteId (metrics : List MetricSample)
    (s : DashboardState) :
    (updateChart metrics s).currentWebsiteId = s.currentWebsiteId := by
  unfold updateChart; split <;> rfl

@[simp] lemma updateChart_metricsSectionVisible (metrics : List MetricSample)
    (s : DashboardState) :
    (updateChart metrics s).metricsSectionVisible = s.metricsSectionVisible := by
  unfold updateChart; split <;> rfl

@[simp] lemma updateChart_selectedWebsiteName (metrics : List MetricSample)
    (s : DashboardState) :
    (updateChart metrics s).selectedWebsiteName = s.selectedWebsiteName := by
  unfold updateChart; split <;> rfl

@[simp] lemma updateChart_requests (metrics : List MetricSample) (s : DashboardState) :
    (updateChart metrics s).requests = s.requests := by
  unfold updateChart; split <;> rfl

@[simp] lemma displayWebsites_currentWebsiteId (websites : List Website)
    (s : DashboardState) :
    (displayWebsites websites s).currentWebsiteId = s.currentWebsiteId := by
  unfold displayWebsites; split <;> rfl

@[simp] lemma displayWebsites_metricsSectionVisible (websites : List Website)
    (s : DashboardState) :
    (displayWebsites websites s).metricsSectionVisible = s.metricsSectionVisible := by
  unfold displayWebsites; split <;> rfl

@[simp] lemma loadWebsites_currentWebsiteId (res : Except Unit (List Website))
    (s : DashboardState) :
    (loadWebsites res s).currentWebsiteId = s.currentWebsiteId := by
  cases res <;>
    simp [loadWebsites, showLoading, pushRequest, hideLoading, showNotification]

@[simp] lemma loadWebsites_metricsSectionVisible (res : Except Unit (List Website))
    (s : DashboardState) :
    (loadWebsites res s).metricsSectionVisible = s.metricsSectionVisible := by
  cases res <;>
    simp [loadWebsites, showLoading, pushRequest, hideLoading, showNotification]

@[simp] lemma loadWebsiteMetrics_currentWebsiteId (id : Nat)
    (res : Except Unit (List MetricSample)) (s : DashboardState) :
    (loadWebsiteMetrics id res s).currentWebsiteId = s.currentWebsiteId := by
  cases res <;>
    simp [loadWebsiteMetrics, showLoading, pushRequest, hideLoading, showNotification]

@[simp] lemma loadWebsiteMetrics_metricsSectionVisible (id : Nat)
    (res : Except Unit (List MetricSample)) (s : DashboardState) :
    (loadWebsiteMetrics id res s).metricsSectionVisible = s.metricsSectionVisible := by
  cases res <;>
    simp [loadWebsiteMetrics, showLoading, pushRequest, hideLoading, showNotification]

@[simp] lemma loadWebsiteMetrics_selectedWebsiteName (id : Nat)
    (res : Except Unit (List MetricSample)) (s : DashboardState) :
    (loadWebsiteMetrics id res s).selectedWebsiteName = s.selectedWebsiteName := by
  cases res <;>
    simp [loadWebsiteMetrics, showLoading, pushRequest, hideLoading, showNotification]

@[simp] lemma loadWebsiteMetrics_requests (id : Nat)
    (res : Except Unit (List MetricSample)) (s : DashboardState) :
    (loadWebsiteMetrics id res s).requests
      = s.requests ++ [ApiRequest.getMetrics id s.dateRangeValue] := by
  cases res <;>
    simp [loadWebsiteMetrics, showLoading, pushRequest, hideLoading, showNotification]

lemma deleteWebsite_ok_currentWebsiteId (id : Nat) (reload : Except Unit (List Website))
    (s : DashboardState) :
    (deleteWebsite id true DeleteResult.ok reload s).currentWebsiteId
      = if s.currentWebsiteId = some id then none else s.currentWebsiteId := by
  simp [deleteWebsite, showLoading, pushRequest, hideLoading, showNotification,
    apply_ite DashboardState.currentWebsiteId]

lemma deleteWebsite_ok_metricsSectionVisible (id : Nat)
    (reload : Except Unit (List Website)) (s : DashboardState) :
    (deleteWebsite id true DeleteResult.ok reload s).metricsSectionVisible
      = if s.currentWebsiteId = some id then false else s.metricsSectionVisible := by
  simp [deleteWebsite, showLoading, pushRequest, hideLoading, showNotification,
    apply_ite DashboardState.metricsSectionVisible]

/-- Website used by concrete scenario states. -/
def demoWebsite : Website :=
  { id := 1, name := "Acme", url := "acme.com", is_verified := true,
    last_audit := some "2024-01-01" }

/-- State in which website 1 is selected and was present in the
last-loaded website list. -/
def staleSelectionState : DashboardState :=
  { initialState with
      currentWebsiteId := some 1
      lastLoadedWebsites := [demoWebsite]
      websitesGrid := GridView.cards [websiteCard demoWebsite]
      metricsSectionVisible := true }

/-- Claim C4 counterexample: reloading a website list that no longer
contains the selected website leaves currentWebsiteId pointing at a
website absent from the last-loaded list, so the claimed invariant is
broken by a list load. -/
theorem loadWebsites_breaks_selection_invariant :
    selectionInvariant staleSelectionState
    ∧ (loadWebsites (Except.ok []) staleSelectionState).currentWebsiteId = some 1
    ∧ (loadWebsites (Except.ok []) staleSelectionState).lastLoadedWebsites = []
    ∧ ¬ selectionInvariant (loadWebsites (Except.ok []) staleSelectionState) := by
  decide

/-- Claim C4 amended: a confirmed successful delete clears
currentWebsiteId exactly when the deleted id equals the current one, and a
website list load never modifies currentWebsiteId, so a selected website
disappearing from a reloaded list does not clear the selection. -/
theorem selection_cleared_only_by_delete :
    (∀ (id : Nat) (reload : Except Unit (List Website)) (s : DashboardState),
      (deleteWebsite id true DeleteResult.ok reload s).currentWebsiteId
        = if s.currentWebsiteId = some id then none else s.currentWebsiteId)
    ∧ (∀ (res : Except Unit (List Website)) (s : DashboardState),
      (loadWebsites res s).currentWebsiteId = s.currentWebsiteId) :=
  ⟨deleteWebsite_ok_currentWebsiteId, loadWebsites_currentWebsiteId⟩

/-- Claim C5: a confirmed successful delete clears the selection and hides
the metrics section exactly when the deleted id equals the currently
selected one, leaving both unchanged otherwise; a failed delete request
leaves both unchanged. -/
theorem deleteWebsite_selection_and_panel (id : Nat)
    (reload : Except Unit (List Website)) (s : DashboardState) :
    ((deleteWebsite id true DeleteResult.ok reload s).currentWebsiteId
      = if s.currentWebsiteId = some id then none else s.currentWebsiteId)
    ∧ ((deleteWebsite id true DeleteResult.ok reload s).metricsSectionVisible
      = if s.currentWebsiteId = some id then false else s.metricsSectionVisible)
    ∧ (deleteWebsite id true DeleteResult.httpError reload s).currentWebsiteId
        = s.currentWebsiteId
    ∧ (deleteWebsite id true DeleteResult.httpError reload s).metricsSectionVisible
        = s.metricsSectionVisible
    ∧ (deleteWebsite id true DeleteResult.networkError reload s).currentWebsiteId
        = s.currentWebsiteId
    ∧ (deleteWebsite id true DeleteResult.networkError reload s).metricsSectionVisible
        = s.metricsSectionVisible :=
  ⟨deleteWebsite_ok_currentWebsiteId id reload s,
    deleteWebsite_ok_metricsSectionVisible id reload s, rfl, rfl, rfl, rfl⟩

/-- Claim C6: updateChart destroys the held chart instance, when one
exists, before creating and assigning the fresh one, so under the chart
ownership invariant at most one chart instance is ever alive. -/
theorem updateChart_single_instance (metrics : List MetricSample) (s : DashboardState)
    (h : chartInvariant s) :
    chartInvariant (updateChart metrics s)
    ∧ (updateChart metrics s).chartsAlive.length ≤ 1
    ∧ (∀ c, s.performanceChart = some c → c ∉ (updateChart metrics s).chartsAlive) := by
  obtain ⟨halive, hbound⟩ := h
  cases hp : s.performanceChart with
  | none =>
      rw [hp] at halive
      simp only [Option.toList] at halive
      refine ⟨⟨?_, ?_⟩, ?_, ?_⟩ <;>
        simp [updateChart, hp, chartInvariant, halive]
  | some c0 =>
      rw [hp] at halive
      simp only [Option.toList] at halive
      have hc0 : c0 < s.nextChartId := hbound c0 (by rw [halive]; exact List.mem_singleton.2 rfl)
      refine ⟨⟨?_, ?_⟩, ?_, ?_⟩
      all_goals simp [updateChart, hp, chartInvariant, halive]
      all_goals omega

/-- State holding one live chart instance, used as the C6 witness. -/
def chartWitnessState : DashboardState :=
  { initialState with performanceChart := some 0, chartsAlive := [0], nextChartId := 1 }

theorem updateChart_single_instance_witness :
    chartInvariant chartWitnessState
    ∧ (chartInvariant (updateChart [] chartWitnessState)
      ∧ (updateChart [] chartWitnessState).chartsAlive.length ≤ 1
      ∧ (∀ c, chartWitnessState.performanceChart = some c
          → c ∉ (updateChart [] chartWitnessState).chartsAlive)) :=
  ⟨by decide, updateChart_single_instance [] chartWitnessState (by decide)⟩

/-- Claim C7: every orchestration path that shows the loading overlay
hides it again, on success and on every failure; the two paths that never
show it, an unconfirmed delete and an audit without selection, leave the
overlay exactly as it was. -/
theorem overlay_always_released :
    (∀ (res : Except Unit (List Website)) (s : DashboardState),
      (loadWebsites res s).loadingVisible = false)
    ∧ (∀ (id : Nat) (res : Except Unit (List MetricSample)) (s : DashboardState),
      (loadWebsiteMetrics id res s).loadingVisible = false)
    ∧ (∀ (res : AddWebsiteResult) (s : DashboardState),
      (handleAddWebsite res s).loadingVisible = false)
    ∧ (∀ (id : Nat) (res : DeleteResult) (reload : Except Unit (List Website))
        (s : DashboardState),
      (deleteWebsite id true res reload s).loadingVisible = false)
    ∧ (∀ (id : Nat) (res : DeleteResult) (reload : Except Unit (List Website))
        (s : DashboardState),
      deleteWebsite id false res reload s = s)
    ∧ (∀ (res : AuditResult) (s : DashboardState) (i : Nat),
      (runAudit res { s with currentWebsiteId := some (i + 1) }).loadingVisible = false)
    ∧ (∀ (res : AuditResult) (s : DashboardState),
      (runAudit res { s with currentWebsiteId := none }).loadingVisible
        = s.loadingVisible) :=
  ⟨fun _ _ => rfl, fun _ _ _ => rfl, fun _ _ => rfl, fun _ _ _ _ => rfl,
    fun _ _ _ _ => rfl, fun _ _ _ => rfl, fun _ _ => rfl⟩

/-- State whose current website id is the number zero. -/
def zeroSelectionState : DashboardState :=
  { initialState with currentWebsiteId := some 0 }

/-- Claim C8 counterexample: with the non-null current website id zero,
runAudit issues no request, because the guard tests JavaScript truthiness
rather than null, and shows the precondition error instead. -/
theorem runAudit_zero_id_no_request :
    zeroSelectionState.currentWebsiteId ≠ none
    ∧ (runAudit AuditResult.ok zeroSelectionState).requests = []
    ∧ (runAudit AuditResult.ok zeroSelectionState).notifications
        = [("Please select a website first", "error")] := by
  decide

/-- Claim C8 amended: when currentWebsiteId is null or the number zero,
both falsy, runAudit issues no network request and surfaces the
precondition error notification; when it is a nonzero id, runAudit issues
exactly one audit request for that id. -/
theorem runAudit_request_behavior :
    (∀ (res : AuditResult) (s : DashboardState),
      (runAudit res { s with currentWebsiteId := none }).requests = s.requests
      ∧ (runAudit res { s with currentWebsiteId := none }).notifications
          = s.notifications ++ [("Please select a website first", "error")])
    ∧ (∀ (res : AuditResult) (s : DashboardState),
      (runAudit res { s with currentWebsiteId := some 0 }).requests = s.requests
      ∧ (runAudit res { s with currentWebsiteId := some 0 }).notifications
          = s.notifications ++ [("Please select a website first", "error")])
    ∧ (∀ (res : AuditResult) (s : DashboardState) (i : Nat),
      (runAudit res { s with currentWebsiteId := some (i + 1) }).requests
        = s.requests ++ [ApiRequest.postAudit (i + 1)]) := by
  refine ⟨fun res s => ⟨rfl, rfl⟩, fun res s => ⟨rfl, rfl⟩, fun res s i => ?_⟩
  cases res <;> rfl

/-- Claim C10: selectWebsite records the selection, updates the header
label and makes the metrics section visible before the metrics request is
issued, and these changes persist for every fetch outcome, including
failure. -/
theorem selectWebsite_state_before_fetch (id : Nat) (name : String)
    (res : Except Unit (List MetricSample)) (s : DashboardState) :
    selectWebsite id name res s = loadWebsiteMetrics id res (applySelection id name s)
    ∧ (applySelection id name s).currentWebsiteId = some id
    ∧ (applySelection id name s).selectedWebsiteName = name ++ " - Metrics"
    ∧ (applySelection id name s).metricsSectionVisible = true
    ∧ (applySelection id name s).requests = s.requests
    ∧ (selectWebsite id name res s).currentWebsiteId = some id
    ∧ (selectWebsite id name res s).selectedWebsiteName = name ++ " - Metrics"
    ∧ (selectWebsite id name res s).metricsSectionVisible = true
    ∧ (selectWebsite id name res s).requests
        = s.requests ++ [ApiRequest.getMetrics id s.dateRangeValue] := by
  refine ⟨rfl, rfl, rfl, rfl, rfl, ?_, ?_, ?_, ?_⟩
  all_goals simp [selectWebsite, applySelection]
